import Mathlib

/-!
# Verification of the camera-screen state machine (`src/application/CameraApp.tsx`)

Shallow embedding of the camera application screen component.  The component
is a React function component; its behaviour is the collection of its event
handlers acting on the screen-level state variables
(`isCaptured`, `currImage`, `classesInfo`, `activeModelInfo`).

We embed:

* the state variables as the record `AppState`;
* the external collaborators (model registry `ImageClassificationModels`,
  label table `MobileNetV3Classes`, `MobileModel.execute`, `ImageUtil.toFile`,
  the inference hook `processImage`) as the record `Env` — the registry and
  the label table are imported modules whose files are not part of the
  sources under study, so they stay abstract parameters, and the library
  calls are oracles that may fail (an `async` rejection is `.error`);
* each handler as a function returning a `HandlerResult`: the state after the
  handler ran (React `set*` updates persist even when the `async` function
  later rejects, so a failing handler still reports the updates already
  performed), the ordered list of observable `Effect`s it performed, and
  whether it ran to completion (`completed = false` means an awaited call
  rejected and the remaining statements never executed);
* the user-visible event loop as `step`, guarded by which UI elements are
  mounted in each screen state (the `Camera` with its capture button is
  mounted only while not captured, the Return button only while captured,
  the hardware back handler always).

Numbers computed by `Math.round(confidence * 1000) / 10` are embedded over
`ℚ`; JavaScript `Math.round x` is `⌊x + 1/2⌋`.
-/

/-- Metadata of one entry of `ImageClassificationModels`: a display name and
the model handle passed to `MobileModel.execute`. -/
structure ModelInfo where
  name : String
  model : String
deriving DecidableEq, Repr

/-- The value produced by one `MobileModel.execute` call:
`{result: {maxIdx, confidence}, metrics}`.  The opaque timing metrics are
kept as a single rational token. -/
structure ExecResult where
  maxIdx : Nat
  confidence : ℚ
  metrics : ℚ
deriving DecidableEq, Repr

/-- One element of the `classesInfo` array built by `classifier`:
`{className, confidence, metrics}`.  `className` is `Option String` because
the unguarded JavaScript table lookup `MobileNetV3Classes[maxIdx]` yields
`undefined` (here `none`) outside the table's range. -/
structure ClassEntry where
  className : Option String
  confidence : ℚ
  metrics : ℚ
deriving DecidableEq, Repr

/-- The screen-level state variables of `CameraExample`. -/
structure AppState where
  isCaptured : Bool
  currImage : String
  classesInfo : List ClassEntry
  activeModel : Option ModelInfo
deriving DecidableEq, Repr

/-- The external collaborators of the component.  `exec h img` is
`MobileModel.execute(h, {image: img})`; `toFile` is `ImageUtil.toFile`;
`processImage` is the live-inference hook call.  Each may reject. -/
structure Env where
  models : List ModelInfo
  classes : List String
  exec : String → String → Except Unit ExecResult
  toFile : String → Except Unit String
  processImage : String → Except Unit Unit

/-- Observable actions a handler performs, in program order. -/
inductive Effect where
  | release : Effect
  | processImage : Effect
  | toFile : Effect
  | execModel : String → Effect
  | setIsCaptured : Bool → Effect
  | setCurrImage : String → Effect
  | setClassesInfo : List ClassEntry → Effect
  | alert : List String → Effect
  | exitApp : Effect
deriving DecidableEq, Repr

/-- Outcome of running one `async` handler: the state after all `set*` calls
that actually executed, the trace of effects performed, and whether the
handler ran to its end (no awaited call rejected). -/
structure HandlerResult where
  state : AppState
  effects : List Effect
  completed : Bool
deriving DecidableEq, Repr

/-- JavaScript `Math.round`: round half toward positive infinity. -/
def jsRound (q : ℚ) : ℤ := ⌊q + 1/2⌋

/-- The body of the `classifier` loop that builds one entry from one
`MobileModel.execute` result (lines 121–126): the label table is indexed
directly with `maxIdx` with no bounds guard, and the raw confidence becomes
`Math.round(confidence * 1000) / 10`. -/
def mkEntry (classes : List String) (r : ExecResult) : ClassEntry :=
  { className := classes.get? r.maxIdx
    confidence := (jsRound (r.confidence * 1000) : ℚ) / 10
    metrics := r.metrics }

/-- The `for (let i = 0; i < 3; i++)` loop of `classifier`, over the list of
remaining indices.  `ImageClassificationModels[i].model` on a missing entry
is a thrown `TypeError` (`.error`); a rejected `execute` aborts the loop. -/
def classifierLoop (env : Env) (img : String) :
    List Nat → List ClassEntry → List Effect × Except Unit (List ClassEntry)
  | [], acc => ([], .ok acc.reverse)
  | i :: rest, acc =>
    match env.models.get? i with
    | none => ([], .error ())
    | some mi =>
      match env.exec mi.model img with
      | .error e => ([Effect.execModel mi.model], .error e)
      | .ok r =>
        let t := classifierLoop env img rest (mkEntry env.classes r :: acc)
        (Effect.execModel mi.model :: t.1, t.2)

/-- `classifier` (lines 105–129): runs the captured image through the first
three entries of `ImageClassificationModels` sequentially and collects the
resulting class entries in model order. -/
def classifier (env : Env) (img : String) :
    List Effect × Except Unit (List ClassEntry) :=
  classifierLoop env img [0, 1, 2] []

/-- `handleFrame` (lines 93–103): while captured the frame is released and
nothing else happens; otherwise the frame goes through `processImage` and is
released afterwards — with no `try`/`finally`, a rejected `processImage`
skips the release. -/
def handleFrame (env : Env) (s : AppState) (img : String) : HandlerResult :=
  if s.isCaptured then
    { state := s, effects := [Effect.release], completed := true }
  else
    match env.processImage img with
    | .ok _ =>
      { state := s, effects := [Effect.processImage, Effect.release],
        completed := true }
    | .error _ =>
      { state := s, effects := [Effect.processImage], completed := false }

/-- `handleCapture` (lines 131–138): persist the photo, set the captured
flag and image path, then classify, store the list and release the image. -/
def handleCapture (env : Env) (s : AppState) (img : String) : HandlerResult :=
  match env.toFile img with
  | .error _ => { state := s, effects := [Effect.toFile], completed := false }
  | .ok p =>
    let imagePath := "file://" ++ p
    let s1 : AppState := { s with isCaptured := true, currImage := imagePath }
    let t := classifier env img
    match t.2 with
    | .error _ =>
      { state := s1
        effects := Effect.toFile :: Effect.setIsCaptured true ::
          Effect.setCurrImage imagePath :: t.1
        completed := false }
    | .ok classes =>
      { state := { s1 with classesInfo := classes }
        effects := Effect.toFile :: Effect.setIsCaptured true ::
          Effect.setCurrImage imagePath :: t.1 ++
          [Effect.setClassesInfo classes, Effect.release]
        completed := true }

/-- `handlePressReturn` (lines 140–144). -/
def handlePressReturn (s : AppState) : AppState :=
  { s with classesInfo := [], currImage := "", isCaptured := false }

/-- The user's answer to the quit-confirmation dialog. -/
inductive BackChoice where
  | cancel : BackChoice
  | confirm : BackChoice
deriving DecidableEq, Repr

/-- `backAction` (lines 67–83): while captured, back behaves as Return;
otherwise it raises the quit dialog, whose Cancel button does nothing and
whose YES button calls `BackHandler.exitApp()`. -/
def backAction (s : AppState) (c : BackChoice) : AppState × List Effect :=
  if s.isCaptured then
    (handlePressReturn s,
     [Effect.setClassesInfo [], Effect.setCurrImage "",
      Effect.setIsCaptured false])
  else
    match c with
    | .cancel => (s, [Effect.alert ["Cancel", "YES"]])
    | .confirm => (s, [Effect.alert ["Cancel", "YES"], Effect.exitApp])

/-- User-visible events the mounted UI can deliver. -/
inductive Event where
  | frame : String → Event
  | capture : String → Event
  | pressReturn : Event
  | back : BackChoice → Event
  | selectModel : ModelInfo → Event
deriving DecidableEq, Repr

/-- Initial state of `CameraExample`: live preview, empty image path, empty
result list, first registry entry selected. -/
def initState (env : Env) : AppState :=
  { isCaptured := false, currImage := "", classesInfo := [],
    activeModel := env.models.get? 0 }

/-- One step of the screen.  `none` means no successor app state: the event's
UI element is not mounted in the current screen state (the camera and its
capture button only exist while live, the Return button only while
captured), or the app terminated via the confirmed quit dialog. -/
def step (env : Env) (s : AppState) : Event → Option AppState
  | .frame img => some (handleFrame env s img).state
  | .capture img =>
    if s.isCaptured then none else some (handleCapture env s img).state
  | .pressReturn =>
    if s.isCaptured then some (handlePressReturn s) else none
  | .back c =>
    if s.isCaptured then some (backAction s c).1
    else
      match c with
      | .cancel => some s
      | .confirm => none
  | .selectModel m => some { s with activeModel := some m }

/-- States reachable from the initial state through the step relation. -/
inductive Reachable (env : Env) : AppState → Prop
  | init : Reachable env (initState env)
  | next {s e s'} : Reachable env s → step env s e = some s' →
      Reachable env s'

/-- Number of `release` effects in a trace. -/
def countRelease (l : List Effect) : Nat :=
  l.countP (fun e =>
    match e with
    | Effect.release => true
    | _ => false)

/-- Whether an effect is a `setClassesInfo`. -/
def isSetClasses : Effect → Bool
  | Effect.setClassesInfo _ => true
  | _ => false

/-- Whether an effect is `setIsCaptured true`. -/
def isSetCapturedTrue : Effect → Bool
  | Effect.setIsCaptured true => true
  | _ => false

/-- `storedBeforeTransition tr` holds when some `setClassesInfo` occurs
strictly before some later `setIsCaptured true` in the trace. -/
def storedBeforeTransition : List Effect → Bool
  | [] => false
  | e :: rest =>
    (isSetClasses e && rest.any isSetCapturedTrue) || storedBeforeTransition rest

/-! ## Concrete environments used for witnesses and counterexamples -/

/-- A three-entry model registry like `ImageClassificationModels`. -/
def demoModels : List ModelInfo :=
  [⟨"MobileNetV3Small", "msmall"⟩, ⟨"MobileNetV3Large", "mlarge"⟩,
   ⟨"ResNet18", "resnet"⟩]

/-- A model-execution oracle that always succeeds with in-range outputs. -/
def demoExec : String → String → Except Unit ExecResult := fun h _ =>
  if h = "msmall" then .ok ⟨0, 9/10, 12⟩
  else if h = "mlarge" then .ok ⟨1, 3/4, 15⟩
  else .ok ⟨2, 1/2, 20⟩

/-- Environment where every external call succeeds. -/
def envGood : Env :=
  { models := demoModels
    classes := ["tench", "goldfish", "shark"]
    exec := demoExec
    toFile := fun _ => .ok "data/tmp/cap.jpg"
    processImage := fun _ => .ok () }

/-- Environment whose live-inference hook rejects on every frame. -/
def envFrameFail : Env :=
  { envGood with processImage := fun _ => .error () }

/-- Environment whose model-execution call rejects. -/
def envExecFail : Env :=
  { envGood with exec := fun _ _ => .error () }

/-- Environment whose model outputs index past the label table's range. -/
def envOutOfRange : Env :=
  { envGood with
    classes := ["tench", "goldfish"]
    exec := fun _ _ => .ok ⟨5, 1/2, 7⟩ }

example : (classifier envGood "img").2 =
    .ok [mkEntry envGood.classes ⟨0, 9/10, 12⟩,
         mkEntry envGood.classes ⟨1, 3/4, 15⟩,
         mkEntry envGood.classes ⟨2, 1/2, 20⟩] := rfl

example : (handleCapture envGood (initState envGood) "img").effects =
    [Effect.toFile, Effect.setIsCaptured true,
     Effect.setCurrImage "file://data/tmp/cap.jpg",
     Effect.execModel "msmall", Effect.execModel "mlarge",
     Effect.execModel "resnet",
     Effect.setClassesInfo [mkEntry envGood.classes ⟨0, 9/10, 12⟩,
       mkEntry envGood.classes ⟨1, 3/4, 15⟩,
       mkEntry envGood.classes ⟨2, 1/2, 20⟩],
     Effect.release] := rfl

example : (mkEntry envGood.classes ⟨0, 9/10, 12⟩).className = some "tench" ∧
    (mkEntry envGood.classes ⟨0, 9/10, 12⟩).confidence = 90 := by
  refine ⟨rfl, ?_⟩
  norm_num [mkEntry, jsRound, envGood]

/-- A concrete captured-screen state used to instantiate theorems. -/
def capturedDemo : AppState :=
  { isCaptured := true, currImage := "file://data/tmp/cap.jpg",
    classesInfo := [], activeModel := some ⟨"MobileNetV3Small", "msmall"⟩ }

/-- `handleFrame` never changes the screen-level state variables; it only
performs effects. -/
theorem handleFrame_state (env : Env) (s : AppState) (img : String) :
    (handleFrame env s img).state = s := by
  unfold handleFrame
  cases h : s.isCaptured <;> simp
  cases env.processImage img <;> simp

/-- C3: while the screen state is Captured, a delivered frame is released
immediately, the inference hook is never invoked for it, and the state is
unchanged. -/
theorem frame_dropped_while_captured (env : Env) (s : AppState) (img : String)
    (h : s.isCaptured = true) :
    (handleFrame env s img).effects = [Effect.release] ∧
    Effect.processImage ∉ (handleFrame env s img).effects ∧
    (handleFrame env s img).state = s := by
  simp [handleFrame, h]

/-- Witness for `frame_dropped_while_captured` at a concrete captured
state. -/
theorem frame_dropped_while_captured_w :
    (handleFrame envGood capturedDemo "frame").effects = [Effect.release] ∧
    Effect.processImage ∉ (handleFrame envGood capturedDemo "frame").effects ∧
    (handleFrame envGood capturedDemo "frame").state = capturedDemo :=
  frame_dropped_while_captured envGood capturedDemo "frame" rfl

/-- C6: pressing Return (and the hardware back press, which calls the same
handler) while Captured clears the result list, clears the image path, and
moves the screen back to LivePreview. -/
theorem return_clears_state (env : Env) (s : AppState) (c : BackChoice)
    (h : s.isCaptured = true) :
    (handlePressReturn s).classesInfo = [] ∧
    (handlePressReturn s).currImage = "" ∧
    (handlePressReturn s).isCaptured = false ∧
    step env s Event.pressReturn = some (handlePressReturn s) ∧
    (backAction s c).1 = handlePressReturn s := by
  simp [handlePressReturn, step, backAction, h]

/-- Witness for `return_clears_state` at a concrete captured state. -/
theorem return_clears_state_w :
    (handlePressReturn capturedDemo).classesInfo = [] ∧
    (handlePressReturn capturedDemo).currImage = "" ∧
    (handlePressReturn capturedDemo).isCaptured = false ∧
    step envGood capturedDemo Event.pressReturn =
      some (handlePressReturn capturedDemo) ∧
    (backAction capturedDemo BackChoice.cancel).1 =
      handlePressReturn capturedDemo :=
  return_clears_state envGood capturedDemo BackChoice.cancel rfl

/-- C8: a hardware back press while LivePreview raises the quit-confirmation
dialog with the Cancel and YES options; Cancel leaves the whole state
unchanged and does not exit, Confirm exits the app (`step` has no successor
state). -/
theorem back_live_confirmation (env : Env) (s : AppState)
    (h : s.isCaptured = false) :
    (backAction s BackChoice.cancel).2 = [Effect.alert ["Cancel", "YES"]] ∧
    (backAction s BackChoice.cancel).1 = s ∧
    Effect.exitApp ∉ (backAction s BackChoice.cancel).2 ∧
    (backAction s BackChoice.confirm).2 =
      [Effect.alert ["Cancel", "YES"], Effect.exitApp] ∧
    step env s (Event.back BackChoice.cancel) = some s ∧
    step env s (Event.back BackChoice.confirm) = none := by
  simp [backAction, step, h]

/-- Witness for `back_live_confirmation` at the initial state. -/
theorem back_live_confirmation_w :
    (backAction (initState envGood) BackChoice.cancel).2 =
      [Effect.alert ["Cancel", "YES"]] ∧
    (backAction (initState envGood) BackChoice.cancel).1 = initState envGood ∧
    Effect.exitApp ∉ (backAction (initState envGood) BackChoice.cancel).2 ∧
    (backAction (initState envGood) BackChoice.confirm).2 =
      [Effect.alert ["Cancel", "YES"], Effect.exitApp] ∧
    step envGood (initState envGood) (Event.back BackChoice.cancel) =
      some (initState envGood) ∧
    step envGood (initState envGood) (Event.back BackChoice.confirm) = none :=
  back_live_confirmation envGood (initState envGood) rfl

/-- C5: the post-capture classification is independent of the selected model
descriptor.  Selecting a model only replaces `activeModel` (so it does not
reset the screen state), and two capture runs from states that agree on
everything except the selection produce the same result list, the same
captured flag and the same image path. -/
theorem selection_independent_classification (env : Env) (s1 s2 : AppState)
    (m : ModelInfo) (img : String)
    (hc : s1.isCaptured = s2.isCaptured) (hi : s1.currImage = s2.currImage)
    (hl : s1.classesInfo = s2.classesInfo) :
    step env s1 (Event.selectModel m) =
      some { s1 with activeModel := some m } ∧
    (handleCapture env s1 img).state.classesInfo =
      (handleCapture env s2 img).state.classesInfo ∧
    (handleCapture env s1 img).state.isCaptured =
      (handleCapture env s2 img).state.isCaptured ∧
    (handleCapture env s1 img).state.currImage =
      (handleCapture env s2 img).state.currImage := by
  refine ⟨rfl, ?_⟩
  unfold handleCapture
  cases hf : env.toFile img with
  | error e => simp [hc, hi, hl]
  | ok p =>
    cases hcl : (classifier env img).2 with
    | error e => simp [hcl, hc, hi, hl]
    | ok classes => simp [hcl, hc, hi, hl]

/-- Witness for `selection_independent_classification`: two initial states
with different selections classify identically on capture. -/
theorem selection_independent_classification_w :
    step envGood (initState envGood)
        (Event.selectModel ⟨"ResNet18", "resnet"⟩) =
      some { initState envGood with
        activeModel := some ⟨"ResNet18", "resnet"⟩ } ∧
    (handleCapture envGood (initState envGood) "img").state.classesInfo =
      (handleCapture envGood
        { initState envGood with activeModel := some ⟨"ResNet18", "resnet"⟩ }
        "img").state.classesInfo ∧
    (handleCapture envGood (initState envGood) "img").state.isCaptured =
      (handleCapture envGood
        { initState envGood with activeModel := some ⟨"ResNet18", "resnet"⟩ }
        "img").state.isCaptured ∧
    (handleCapture envGood (initState envGood) "img").state.currImage =
      (handleCapture envGood
        { initState envGood with activeModel := some ⟨"ResNet18", "resnet"⟩ }
        "img").state.currImage :=
  selection_independent_classification envGood (initState envGood)
    { initState envGood with activeModel := some ⟨"ResNet18", "resnet"⟩ }
    ⟨"ResNet18", "resnet"⟩ "img" rfl rfl rfl

/-- C7: from the initial LivePreview state, the only transition that enters
Captured is a capture event taken in LivePreview, and the only transitions
that re-enter LivePreview from Captured are the Return press and the
hardware back press. -/
theorem screen_state_transitions (env : Env) :
    (initState env).isCaptured = false ∧
    ∀ s e s', step env s e = some s' →
      (s.isCaptured = false → s'.isCaptured = true →
        ∃ img, e = Event.capture img) ∧
      (s.isCaptured = true → s'.isCaptured = false →
        e = Event.pressReturn ∨ ∃ c, e = Event.back c) := by
  refine ⟨rfl, ?_⟩
  intro s e s' hst
  cases e with
  | frame img =>
    simp only [step, Option.some_inj] at hst
    subst hst
    rw [handleFrame_state]
    constructor
    · intro h1 h2; rw [h1] at h2; exact absurd h2 (by simp)
    · intro h1 h2; rw [h1] at h2; exact absurd h2 (by simp)
  | capture img =>
    constructor
    · intro _ _; exact ⟨img, rfl⟩
    · intro h1 _
      simp [step, h1] at hst
  | pressReturn =>
    constructor
    · intro h1 _
      simp [step, h1] at hst
    · intro _ _; exact Or.inl rfl
  | back c =>
    constructor
    · intro h1 h2
      simp [step, h1] at hst
      cases c with
      | cancel =>
        simp only [Option.some_inj] at hst
        subst hst
        rw [h1] at h2; exact absurd h2 (by simp)
      | confirm => simp at hst
    · intro _ _; exact Or.inr ⟨c, rfl⟩
  | selectModel m =>
    simp only [step, Option.some_inj] at hst
    subst hst
    constructor
    · intro h1 h2
      simp only at h2; rw [h1] at h2; exact absurd h2 (by simp)
    · intro h1 h2
      simp only at h2; rw [h1] at h2; exact absurd h2 (by simp)

/-- Witness for `screen_state_transitions`: the concrete capture step from
the initial state enters Captured via a capture event. -/
theorem screen_state_transitions_w :
    ∃ img, Event.capture "img" = Event.capture img :=
  ((screen_state_transitions envGood).2 (initState envGood)
      (Event.capture "img")
      (handleCapture envGood (initState envGood) "img").state rfl).1
    rfl rfl

/-- One step preserves "LivePreview has an empty result list and an empty
image path". -/
theorem step_preserves_liveEmpty (env : Env) (s : AppState) (e : Event)
    (s' : AppState)
    (ih : s.isCaptured = false → s.classesInfo = [] ∧ s.currImage = "")
    (hst : step env s e = some s') :
    s'.isCaptured = false → s'.classesInfo = [] ∧ s'.currImage = "" := by
  cases e with
  | frame img =>
    simp only [step, Option.some_inj] at hst
    subst hst
    rw [handleFrame_state]
    exact ih
  | capture img =>
    by_cases h : s.isCaptured = true
    · simp [step, h] at hst
    · have h' : s.isCaptured = false := by simpa using h
      simp only [step, h', if_neg, Bool.false_eq_true, if_false,
        Option.some_inj] at hst
      subst hst
      cases hf : env.toFile img with
      | error e => simpa [handleCapture, hf] using ih
      | ok p =>
        cases hcl : (classifier env img).2 with
        | error e => simp [handleCapture, hf, hcl]
        | ok classes => simp [handleCapture, hf, hcl]
  | pressReturn =>
    by_cases h : s.isCaptured = true
    · simp only [step, h, if_pos, Option.some_inj] at hst
      subst hst
      intro _
      exact ⟨rfl, rfl⟩
    · simp [step, h] at hst
  | back c =>
    by_cases h : s.isCaptured = true
    · simp only [step, h, if_pos, Option.some_inj] at hst
      subst hst
      simp [backAction, h, handlePressReturn]
    · have h' : s.isCaptured = false := by simpa using h
      cases c with
      | cancel =>
        simp only [step, h', Bool.false_eq_true, if_false,
          Option.some_inj] at hst
        subst hst
        exact ih
      | confirm => simp [step, h'] at hst
  | selectModel m =>
    simp only [step, Option.some_inj] at hst
    subst hst
    exact ih

/-- C9: in every reachable state, LivePreview implies the result list is
empty and the captured image path is the empty string. -/
theorem live_preview_empty (env : Env) (s : AppState) (h : Reachable env s)
    (hl : s.isCaptured = false) :
    s.classesInfo = [] ∧ s.currImage = "" := by
  revert hl
  induction h with
  | init => intro _; exact ⟨rfl, rfl⟩
  | next hr hst ih => exact step_preserves_liveEmpty _ _ _ _ ih hst

/-- Witness for `live_preview_empty` at the initial state. -/
theorem live_preview_empty_w :
    (initState envGood).classesInfo = [] ∧ (initState envGood).currImage = "" :=
  live_preview_empty envGood (initState envGood) Reachable.init rfl

/-- The classifier loop performs model executions only, never a release. -/
theorem countRelease_classifierLoop (env : Env) (img : String) :
    ∀ (idxs : List Nat) (acc : List ClassEntry),
      countRelease (classifierLoop env img idxs acc).1 = 0 := by
  intro idxs
  induction idxs with
  | nil => intro acc; simp [classifierLoop, countRelease]
  | cons i rest ih =>
    intro acc
    unfold classifierLoop
    split
    · simp [countRelease]
    · split
      · simp [countRelease]
      · simp only [countRelease, List.countP_cons]
        simpa [countRelease] using ih _

/-- C2 (amended): on every run of the frame handler or the capture handler
that completes (no awaited call rejects), the frame is released exactly
once. -/
theorem release_exactly_once_on_completion (env : Env) (s : AppState)
    (img : String)
    (hf : (handleFrame env s img).completed = true)
    (hc : (handleCapture env s img).completed = true) :
    countRelease (handleFrame env s img).effects = 1 ∧
    countRelease (handleCapture env s img).effects = 1 := by
  constructor
  · by_cases h : s.isCaptured = true
    · simp [handleFrame, h, countRelease]
    · have h' : s.isCaptured = false := by simpa using h
      cases hp : env.processImage img with
      | ok u => simp [handleFrame, h', hp, countRelease]
      | error e => simp [handleFrame, h', hp] at hf
  · cases ht : env.toFile img with
    | error e => simp [handleCapture, ht] at hc
    | ok p =>
      cases hcl : (classifier env img).2 with
      | error e => simp [handleCapture, ht, hcl] at hc
      | ok cs =>
        have hz : countRelease (classifier env img).1 = 0 :=
          countRelease_classifierLoop env img [0, 1, 2] []
        simp only [countRelease] at hz ⊢
        simp [handleCapture, ht, hcl, List.countP_cons, List.countP_append,
          hz]

/-- Witness for `release_exactly_once_on_completion` with every call
succeeding. -/
theorem release_exactly_once_on_completion_w :
    countRelease (handleFrame envGood (initState envGood) "f").effects = 1 ∧
    countRelease (handleCapture envGood (initState envGood) "f").effects = 1 :=
  release_exactly_once_on_completion envGood (initState envGood) "f" rfl rfl

/-- Counterexample to C2 as stated: when the awaited inference call rejects,
the frame handler performs zero releases (the call was made, the handler did
not complete), and when a model-execution call rejects, the capture handler
also performs zero releases even though it already entered the Captured
state. -/
theorem release_skipped_on_failure :
    countRelease
        (handleFrame envFrameFail (initState envFrameFail) "f").effects = 0 ∧
    Effect.processImage ∈
      (handleFrame envFrameFail (initState envFrameFail) "f").effects ∧
    (handleFrame envFrameFail (initState envFrameFail) "f").completed
      = false ∧
    countRelease
        (handleCapture envExecFail (initState envExecFail) "f").effects = 0 ∧
    (handleCapture envExecFail (initState envExecFail) "f").state.isCaptured
      = true := by
  decide

/-- Evaluation of `classifier` when the registry has three entries and all
three executions succeed: the three models are executed sequentially in
registry order and the entries are collected in the same order. -/
theorem classifier_eval (env : Env) (img : String) (m0 m1 m2 : ModelInfo)
    (r0 r1 r2 : ExecResult)
    (h0 : env.models.get? 0 = some m0) (h1 : env.models.get? 1 = some m1)
    (h2 : env.models.get? 2 = some m2)
    (e0 : env.exec m0.model img = .ok r0)
    (e1 : env.exec m1.model img = .ok r1)
    (e2 : env.exec m2.model img = .ok r2) :
    classifier env img =
      ([Effect.execModel m0.model, Effect.execModel m1.model,
        Effect.execModel m2.model],
       .ok [mkEntry env.classes r0, mkEntry env.classes r1,
            mkEntry env.classes r2]) := by
  have g0 : env.models[0]? = some m0 := by simpa using h0
  have g1 : env.models[1]? = some m1 := by simpa using h1
  have g2 : env.models[2]? = some m2 := by simpa using h2
  simp [classifier, classifierLoop, g0, g1, g2, e0, e1, e2]

/-- C1 (amended): on a capture action where persisting and all three model
executions succeed, the handler first persists the photo, then transitions
to Captured and records the image path, then runs the photo through the
first three configured models in order, and stores the resulting
classification list after — not before — the transition to Captured. -/
theorem capture_persist_transition_store (env : Env) (s : AppState)
    (img p : String) (m0 m1 m2 : ModelInfo) (r0 r1 r2 : ExecResult)
    (hp : env.toFile img = .ok p)
    (h0 : env.models.get? 0 = some m0) (h1 : env.models.get? 1 = some m1)
    (h2 : env.models.get? 2 = some m2)
    (e0 : env.exec m0.model img = .ok r0)
    (e1 : env.exec m1.model img = .ok r1)
    (e2 : env.exec m2.model img = .ok r2) :
    (handleCapture env s img).effects =
      [Effect.toFile, Effect.setIsCaptured true,
       Effect.setCurrImage ("file://" ++ p),
       Effect.execModel m0.model, Effect.execModel m1.model,
       Effect.execModel m2.model,
       Effect.setClassesInfo
         [mkEntry env.classes r0, mkEntry env.classes r1,
          mkEntry env.classes r2],
       Effect.release] ∧
    (handleCapture env s img).state =
      { s with
        isCaptured := true
        currImage := "file://" ++ p
        classesInfo := [mkEntry env.classes r0, mkEntry env.classes r1,
          mkEntry env.classes r2] } ∧
    storedBeforeTransition (handleCapture env s img).effects = false := by
  have hcl := classifier_eval env img m0 m1 m2 r0 r1 r2 h0 h1 h2 e0 e1 e2
  refine ⟨?_, ?_, ?_⟩ <;>
    simp [handleCapture, hp, hcl, storedBeforeTransition, isSetClasses,
      isSetCapturedTrue]

/-- Witness for `capture_persist_transition_store` in the all-success
environment. -/
theorem capture_persist_transition_store_w :
    (handleCapture envGood (initState envGood) "img").effects =
      [Effect.toFile, Effect.setIsCaptured true,
       Effect.setCurrImage ("file://" ++ "data/tmp/cap.jpg"),
       Effect.execModel "msmall", Effect.execModel "mlarge",
       Effect.execModel "resnet",
       Effect.setClassesInfo
         [mkEntry envGood.classes ⟨0, 9/10, 12⟩,
          mkEntry envGood.classes ⟨1, 3/4, 15⟩,
          mkEntry envGood.classes ⟨2, 1/2, 20⟩],
       Effect.release] ∧
    (handleCapture envGood (initState envGood) "img").state =
      { initState envGood with
        isCaptured := true
        currImage := "file://" ++ "data/tmp/cap.jpg"
        classesInfo := [mkEntry envGood.classes ⟨0, 9/10, 12⟩,
          mkEntry envGood.classes ⟨1, 3/4, 15⟩,
          mkEntry envGood.classes ⟨2, 1/2, 20⟩] } ∧
    storedBeforeTransition
      (handleCapture envGood (initState envGood) "img").effects = false :=
  capture_persist_transition_store envGood (initState envGood) "img"
    "data/tmp/cap.jpg" ⟨"MobileNetV3Small", "msmall"⟩
    ⟨"MobileNetV3Large", "mlarge"⟩ ⟨"ResNet18", "resnet"⟩
    ⟨0, 9/10, 12⟩ ⟨1, 3/4, 15⟩ ⟨2, 1/2, 20⟩ rfl rfl rfl rfl rfl rfl rfl

/-- Counterexample to C1 as stated: in a run where every call succeeds, the
capture handler performs a `setClassesInfo` and a `setIsCaptured true`, but
no `setClassesInfo` occurs before the transition to Captured — the captured
flag is set first, so the list is not stored before the state transition. -/
theorem capture_does_not_store_before_transition :
    storedBeforeTransition
        (handleCapture envGood (initState envGood) "img").effects = false ∧
    (handleCapture envGood (initState envGood) "img").effects.any
        isSetClasses = true ∧
    (handleCapture envGood (initState envGood) "img").effects.any
        isSetCapturedTrue = true := by
  decide

/-- For a raw confidence in `[0, 1]`, the JavaScript rounding
`Math.round(confidence * 1000)` lies in `[0, 1000]`. -/
theorem jsRound_conf_bounds (c : ℚ) (h0 : 0 ≤ c) (h1 : c ≤ 1) :
    0 ≤ jsRound (c * 1000) ∧ jsRound (c * 1000) ≤ 1000 := by
  unfold jsRound
  constructor
  · apply Int.le_floor.mpr
    push_cast
    nlinarith
  · have hlt : c * 1000 + 1/2 < ((1001 : ℤ) : ℚ) := by push_cast; nlinarith
    have := Int.floor_lt.mpr hlt
    omega

/-- The confidence stored in a classifier entry is nonnegative, at most
`100`, and has exactly one decimal place (ten times it is the integer
`Math.round(confidence * 1000)`). -/
theorem mkEntry_confidence_spec (classes : List String) (r : ExecResult)
    (h0 : 0 ≤ r.confidence) (h1 : r.confidence ≤ 1) :
    0 ≤ (mkEntry classes r).confidence ∧
    (mkEntry classes r).confidence ≤ 100 ∧
    (mkEntry classes r).confidence * 10 =
      (jsRound (r.confidence * 1000) : ℚ) := by
  obtain ⟨hl, hu⟩ := jsRound_conf_bounds r.confidence h0 h1
  unfold mkEntry
  refine ⟨?_, ?_, ?_⟩
  · apply div_nonneg _ (by norm_num)
    exact_mod_cast hl
  · rw [div_le_iff₀ (by norm_num : (0:ℚ) < 10)]
    calc ((jsRound (r.confidence * 1000) : ℤ) : ℚ) ≤ ((1000 : ℤ) : ℚ) := by
          exact_mod_cast hu
      _ = 100 * 10 := by norm_num
  · field_simp

/-- C4: with a three-entry registry and every model execution succeeding
with a raw confidence in `[0, 1]`, the classifier returns a 3-element list
whose `i`-th entry is built from the `i`-th model's result in registry
order, and each stored confidence is the raw confidence as a percentage
rounded to exactly one decimal place, lying in `[0, 100]`. -/
theorem classifier_three_rounded_entries (env : Env) (img : String)
    (m0 m1 m2 : ModelInfo) (r0 r1 r2 : ExecResult)
    (h0 : env.models.get? 0 = some m0) (h1 : env.models.get? 1 = some m1)
    (h2 : env.models.get? 2 = some m2)
    (e0 : env.exec m0.model img = .ok r0)
    (e1 : env.exec m1.model img = .ok r1)
    (e2 : env.exec m2.model img = .ok r2)
    (b0 : 0 ≤ r0.confidence ∧ r0.confidence ≤ 1)
    (b1 : 0 ≤ r1.confidence ∧ r1.confidence ≤ 1)
    (b2 : 0 ≤ r2.confidence ∧ r2.confidence ≤ 1) :
    (classifier env img).2 =
      .ok [mkEntry env.classes r0, mkEntry env.classes r1,
           mkEntry env.classes r2] ∧
    ∀ r ∈ [r0, r1, r2],
      0 ≤ (mkEntry env.classes r).confidence ∧
      (mkEntry env.classes r).confidence ≤ 100 ∧
      (mkEntry env.classes r).confidence * 10 =
        (jsRound (r.confidence * 1000) : ℚ) := by
  constructor
  · rw [classifier_eval env img m0 m1 m2 r0 r1 r2 h0 h1 h2 e0 e1 e2]
  · intro r hr
    simp only [List.mem_cons, List.not_mem_nil, or_false] at hr
    rcases hr with rfl | rfl | rfl
    · exact mkEntry_confidence_spec env.classes r b0.1 b0.2
    · exact mkEntry_confidence_spec env.classes r b1.1 b1.2
    · exact mkEntry_confidence_spec env.classes r b2.1 b2.2

/-- Witness for `classifier_three_rounded_entries` in the all-success
environment. -/
theorem classifier_three_rounded_entries_w :
    (classifier envGood "img").2 =
      .ok [mkEntry envGood.classes ⟨0, 9/10, 12⟩,
           mkEntry envGood.classes ⟨1, 3/4, 15⟩,
           mkEntry envGood.classes ⟨2, 1/2, 20⟩] ∧
    ∀ r ∈ [(⟨0, 9/10, 12⟩ : ExecResult), ⟨1, 3/4, 15⟩, ⟨2, 1/2, 20⟩],
      0 ≤ (mkEntry envGood.classes r).confidence ∧
      (mkEntry envGood.classes r).confidence ≤ 100 ∧
      (mkEntry envGood.classes r).confidence * 10 =
        (jsRound (r.confidence * 1000) : ℚ) :=
  classifier_three_rounded_entries envGood "img"
    ⟨"MobileNetV3Small", "msmall"⟩ ⟨"MobileNetV3Large", "mlarge"⟩
    ⟨"ResNet18", "resnet"⟩ ⟨0, 9/10, 12⟩ ⟨1, 3/4, 15⟩ ⟨2, 1/2, 20⟩
    rfl rfl rfl rfl rfl rfl (by norm_num) (by norm_num) (by norm_num)

/-- C10: the classifier's label lookup indexes the table directly with the
model-returned index: within range the entry is the table element at that
index; and in a concrete run whose model output indexes past the two-entry
table, the classifier still succeeds and the stored `className` is the
JavaScript `undefined` (`none`) rather than an error. -/
theorem label_lookup_unguarded :
    (∀ (classes : List String) (r : ExecResult)
      (h : r.maxIdx < classes.length),
      (mkEntry classes r).className = some (classes.get ⟨r.maxIdx, h⟩)) ∧
    (classifier envOutOfRange "img").2 =
      .ok [mkEntry envOutOfRange.classes ⟨5, 1/2, 7⟩,
           mkEntry envOutOfRange.classes ⟨5, 1/2, 7⟩,
           mkEntry envOutOfRange.classes ⟨5, 1/2, 7⟩] ∧
    (mkEntry envOutOfRange.classes ⟨5, 1/2, 7⟩).className = none ∧
    envOutOfRange.classes.length = 2 := by
  refine ⟨?_, rfl, rfl, rfl⟩
  intro classes r h
  simp [mkEntry, List.get?_eq_get h]

/-- Witness for the in-range half of `label_lookup_unguarded`. -/
theorem label_lookup_unguarded_w :
    (mkEntry ["tench", "goldfish"] ⟨1, 1/2, 7⟩).className = some "goldfish" :=
  label_lookup_unguarded.1 ["tench", "goldfish"] ⟨1, 1/2, 7⟩ (by norm_num)
